import Mathlib

/-!
Verification development for the Life Tracker journal core (src/app.py).

The embedding models the journal data (JSON dictionaries) as Lean structures,
calendar dates as day numbers (`Int`; `get_date_key` is an injective rendering
of a date, so ISO date-string keys biject with day numbers and we use the day
number itself as the store key), the session store (`st.session_state.data`,
a Python dict from date key to day record) as a partial map `Int → Option
DayRecord`, and the durable JSON file as a second snapshot mapping inside a
`World`.  Machine floats are modelled as exact rationals, with Python's
`round(x, 1)` modelled as exact decimal rounding.  "today" (`date.today()`)
is passed explicitly as a parameter.
-/

/-- A work task, as built at src/app.py lines 251-257. -/
structure WorkTask where
  id : Int
  title : String
  priority : String
  timeSpent : Int
  completed : Bool

/-- A face-routine item, as built at src/app.py lines 316-320. -/
structure FaceItem where
  id : Int
  name : String
  completed : Bool

/-- A diet entry, as built at src/app.py lines 347-351. -/
structure FoodEntry where
  id : Int
  food : String
  calories : Int

/-- The `fitness` sub-record of a day. -/
structure Fitness where
  duration : ℚ
  caloriesBurnt : Int

/-- The `faceHealth` sub-record of a day. -/
structure FaceHealth where
  items : List FaceItem

/-- The `diet` sub-record of a day. -/
structure Diet where
  entries : List FoodEntry
  totalCalories : Int

/-- The `sleep` sub-record of a day.  `hours` is `Option` because a sleep
dictionary merged in by `update_and_save` may lack the `'hours'` key
(Python dicts have no fixed schema); `none` models an absent key, and
readers use `.get('hours', 0)` (modelled by `Option.getD`). -/
structure Sleep where
  bedTime : String
  wakeTime : String
  hours : Option ℚ

/-- One day's record, keyed by date, as created at src/app.py lines 64-72. -/
structure DayRecord where
  workTasks : List WorkTask
  fitness : Fitness
  faceHealth : FaceHealth
  diet : Diet
  energy : Int
  sleep : Sleep
  nofapStreak : Int

/-- The default day record inserted by `get_day_data` (src/app.py 64-72). -/
def default_day_record : DayRecord :=
  { workTasks := []
    fitness := { duration := 0, caloriesBurnt := 0 }
    faceHealth := { items := [] }
    diet := { entries := [], totalCalories := 0 }
    energy := 3
    sleep := { bedTime := "", wakeTime := "", hours := some 0 }
    nofapStreak := 0 }

/-- The session store: the dict from date key (day number) to day record. -/
abbrev Store := Int → Option DayRecord

/-- The empty mapping `{}`. -/
def emptyStore : Store := fun _ => none

/-- `get_day_data` (src/app.py 61-73): returns the existing record, or
inserts the default record into the dict and returns it.  The mutated dict
is returned as the second component (Python mutates `data` in place). -/
def get_day_data (data : Store) (date_key : Int) : DayRecord × Store :=
  match data date_key with
  | some r => (r, data)
  | none =>
      (default_day_record,
        fun k => if k = date_key then some default_day_record else data k)

/-- The process state visible to persistence: the in-memory session dict
and the durable storage contents (the JSON file last written). -/
structure World where
  data : Store
  disk : Store

/-- `save_data` (src/app.py 52-55): writes the whole mapping to the file;
the result is the new durable-storage contents. -/
def save_data (data : Store) : Store := data

/-- `load_data` (src/app.py 42-50).  The file system and JSON decoding are
external collaborators: `file` is the file's content when it exists
(`os.path.exists`), and `parse` abstracts `json.load`, returning `none` on
any parse failure (the `except` path). -/
def load_data (parse : String → Option Store) (file : Option String) : Store :=
  match file with
  | some content =>
      match parse content with
      | some data => data
      | none => emptyStore
  | none => emptyStore

/-- A partial day record passed to `update_and_save` as `updates`: a dict
holding some subset of the top-level keys of a day record.  `none` models
an absent top-level key. -/
structure DayPatch where
  workTasks : Option (List WorkTask) := none
  fitness : Option Fitness := none
  faceHealth : Option FaceHealth := none
  diet : Option Diet := none
  energy : Option Int := none
  sleep : Option Sleep := none
  nofapStreak : Option Int := none

/-- Python's `dict.update`: each top-level key present in `u` replaces the
corresponding field of `r` wholesale; absent keys leave `r` unchanged. -/
def dict_update (r : DayRecord) (u : DayPatch) : DayRecord :=
  { workTasks := u.workTasks.getD r.workTasks
    fitness := u.fitness.getD r.fitness
    faceHealth := u.faceHealth.getD r.faceHealth
    diet := u.diet.getD r.diet
    energy := u.energy.getD r.energy
    sleep := u.sleep.getD r.sleep
    nofapStreak := u.nofapStreak.getD r.nofapStreak }

/-- `update_and_save` (src/app.py 81-87): fetch (or default) the current
day's record, `dict.update` it with the partial record, store it back, and
synchronously write the whole mapping to durable storage. -/
def update_and_save (w : World) (current_date : Int) (updates : DayPatch) : World :=
  let date_key := current_date
  let p := get_day_data w.data date_key
  let day_data := dict_update p.1 updates
  let data2 : Store := fun k => if k = date_key then some day_data else p.2 k
  { data := data2, disk := save_data data2 }

/-- `get_day_data` as seen by the whole process state: it reads and writes
only the in-memory dict (src/app.py 61-73 contains no `save_data` call),
so durable storage is left as it was. -/
def get_day_dataW (w : World) (date_key : Int) : DayRecord × World :=
  let p := get_day_data w.data date_key
  (p.1, { data := p.2, disk := w.disk })

/-- Decimal value of an ASCII digit character. -/
def digitVal (c : Char) : ℕ := c.toNat - 48

/-- ASCII digit `0`-`9` (the `\d` of the `%H`/`%M` patterns). -/
abbrev isDig (c : Char) : Prop := 48 ≤ c.toNat ∧ c.toNat ≤ 57

/-- ASCII digit `0`-`5` (first digit of a two-digit minute `[0-5]\d`). -/
abbrev isDig05 (c : Char) : Prop := 48 ≤ c.toNat ∧ c.toNat ≤ 53

/-- ASCII digit `0`-`3` (second digit of an hour `2[0-3]`). -/
abbrev isDig03 (c : Char) : Prop := 48 ≤ c.toNat ∧ c.toNat ≤ 51

/-- ASCII digit `0`-`1` (first digit of an hour `[0-1]\d`). -/
abbrev isDig01 (c : Char) : Prop := 48 ≤ c.toNat ∧ c.toNat ≤ 49

/-- A two-character hour field, per strptime's `%H` pattern
`2[0-3]|[0-1]\d`. -/
abbrev isHour2 (a b : Char) : Prop :=
  (a = '2' ∧ isDig03 b) ∨ (isDig01 a ∧ isDig b)

/-- `datetime.strptime(s, '%H:%M')` as a total parser: returns the minutes
since midnight on success, `none` when strptime would raise (no match, or
unconverted data remaining).  The hour is one digit `\d` or two digits
`2[0-3]|[0-1]\d`; the minute is one digit `\d` or two digits `[0-5]\d`;
nothing may follow.  Digits are modelled as ASCII digits. -/
def parseTimeHM (s : String) : Option ℕ :=
  match s.toList with
  | [a, b, c] =>
      if b = ':' ∧ isDig a ∧ isDig c then
        some (60 * digitVal a + digitVal c)
      else none
  | [a, b, c, d] =>
      if b = ':' ∧ isDig a ∧ isDig05 c ∧ isDig d then
        some (60 * digitVal a + (10 * digitVal c + digitVal d))
      else if c = ':' ∧ isHour2 a b ∧ isDig d then
        some (60 * (10 * digitVal a + digitVal b) + digitVal d)
      else none
  | [a, b, c, d, e] =>
      if c = ':' ∧ isHour2 a b ∧ isDig05 d ∧ isDig e then
        some (60 * (10 * digitVal a + digitVal b) + (10 * digitVal d + digitVal e))
      else none
  | _ => none

/-- Python's `round(x, 1)` over exact rationals: round `10 * x` to an
integer and divide by ten. -/
def round1 (q : ℚ) : ℚ := (round (10 * q) : ℤ) / 10

/-- `calculate_sleep_hours` (src/app.py 89-101): empty input (falsy string)
gives 0.0; both times are parsed as `%H:%M`; a wake time strictly before
the bed time gains a day; the difference in seconds over 3600 is rounded
to one decimal; any parse failure gives 0.0. -/
def calculate_sleep_hours (bed_time wake_time : String) : ℚ :=
  if bed_time = "" ∨ wake_time = "" then 0
  else
    match parseTimeHM bed_time, parseTimeHM wake_time with
    | some bed, some wake =>
        let wake2 : ℕ := if wake < bed then wake + 1440 else wake
        round1 ((((wake2 : ℚ) - (bed : ℚ)) * 60) / 3600)
    | _, _ => 0

/-- The loop condition at src/app.py line 112:
`date_key in data and data[date_key].get('nofapStreak') == 1`
at lookback offset `i` from `today`. -/
def flagged_on (data : Store) (today : Int) (i : ℕ) : Bool :=
  match data (today - (i : Int)) with
  | some r => decide (r.nofapStreak = 1)
  | none => false

/-- The `for i in range(365)` loop of `calculate_nofap_streak`
(src/app.py 108-117): `fuel` counts the remaining iterations, `i` is the
current offset, `streak` the accumulator.  The dict is only read (via the
`in` membership test and subscripting), so it is returned unchanged on
every exit path. -/
def streakGo (data : Store) (today : Int) : ℕ → ℕ → ℕ → ℕ × Store
  | 0, _, streak => (streak, data)
  | fuel + 1, i, streak =>
      if flagged_on data today i then streakGo data today fuel (i + 1) (streak + 1)
      else if i = 0 then streakGo data today fuel (i + 1) streak
      else (streak, data)

/-- `calculate_nofap_streak` (src/app.py 103-119), with `date.today()`
passed explicitly as `today`. -/
def calculate_nofap_streak (data : Store) (today : Int) : ℕ × Store :=
  streakGo data today 365 0 0

/-- One element of the `stats` list built at src/app.py lines 132-143.
The `date_str` display string (a formatting of `date`) is omitted. -/
structure DailyStat where
  date : Int
  work_mins : Int
  cals_in : Int
  cals_out : Int
  sleep : ℚ
  energy : Int
  face_total : ℕ
  face_done : ℕ
  nofap : Int

/-- The projection of one day's record into a `DailyStat`
(src/app.py 130, 132-143). -/
def mkDailyStat (check_date : Int) (day_data : DayRecord) : DailyStat :=
  { date := check_date
    work_mins := (day_data.workTasks.map (fun t => t.timeSpent)).sum
    cals_in := day_data.diet.totalCalories
    cals_out := day_data.fitness.caloriesBurnt
    sleep := day_data.sleep.hours.getD 0
    energy := day_data.energy
    face_total := day_data.faceHealth.items.length
    face_done := (day_data.faceHealth.items.filter (fun it => it.completed)).length
    nofap := day_data.nofapStreak }

/-- The `for i in range(days - 1, -1, -1)` loop of `get_analytics_data`
(src/app.py 125-143), processing the lookback offsets in the given order;
each day is materialized through `get_day_data`, threading the mutated
dict. -/
def analyticsGo (today : Int) : List ℕ → Store → List DailyStat × Store
  | [], data => ([], data)
  | i :: rest, data =>
      let p := get_day_data data (today - (i : Int))
      let q := analyticsGo today rest p.2
      (mkDailyStat (today - (i : Int)) p.1 :: q.1, q.2)

/-- `get_analytics_data` (src/app.py 121-145): the offsets
`days - 1, ..., 1, 0` (Python's `range(days - 1, -1, -1)`), oldest first
and ending at today. -/
def get_analytics_data (data : Store) (today : Int) (days : ℕ) : List DailyStat × Store :=
  analyticsGo today (List.range days).reverse data

/-- `get_analytics_data` over the whole process state: it mutates only the
in-memory dict (src/app.py 121-145 contains no `save_data` call). -/
def get_analytics_dataW (w : World) (today : Int) (days : ℕ) : List DailyStat × World :=
  let p := get_analytics_data w.data today days
  (p.1, { data := p.2, disk := w.disk })

/-- The add-food mutation (src/app.py 347-352): append the new entry, then
recompute `totalCalories` as the sum over all entries. -/
def add_food_entry (day : DayRecord) (id : Int) (food : String) (calories : Int) : DayRecord :=
  let entries := day.diet.entries ++ [{ id := id, food := food, calories := calories }]
  { day with diet := { entries := entries, totalCalories := (entries.map (fun e => e.calories)).sum } }

/-! ## Concrete fixtures used by counterexamples and witnesses -/

/-- A day record whose `nofapStreak` flag is set. -/
def flaggedRec : DayRecord := { default_day_record with nofapStreak := 1 }

/-- A store flagged today (day 0) and yesterday (day -1) only. -/
def store2 : Store := fun k => if k = 0 ∨ k = -1 then some flaggedRec else none

/-- A store flagged on 366 consecutive days ending today (day 0). -/
def store366 : Store := fun k => if -365 ≤ k ∧ k ≤ 0 then some flaggedRec else none

/-! ## Helper lemmas -/

/-- The streak loop returns the dict it was given, on every path. -/
theorem streakGo_store_eq (data : Store) (today : Int) :
    ∀ fuel i streak, (streakGo data today fuel i streak).2 = data := by
  intro fuel
  induction fuel with
  | zero => intro i streak; rfl
  | succ f ih =>
      intro i streak
      simp only [streakGo]
      split
      · exact ih (i + 1) (streak + 1)
      · split
        · exact ih (i + 1) streak
        · rfl

/-! ## C4: the streak computation never mutates the store -/

/-- C4: for every store mapping and every today, after `calculate_nofap_streak`
runs the mapping is exactly what it was before: the scan uses only the
membership probe and subscripting, so no default records are materialized
for absent days in the 365-day lookback window. -/
theorem streak_scan_preserves_store (data : Store) (today : Int) :
    (calculate_nofap_streak data today).2 = data :=
  streakGo_store_eq data today 365 0 0

/-! ## C8: the diet totalCalories invariant -/

/-- C8: after the only diet-entries mutation the program offers (adding a
food entry, src/app.py 347-352), `diet.totalCalories` equals the sum of
`diet.entries[*].calories`; in particular adding entries of 200 and 150
calories to a record with an empty entries list yields 350. -/
theorem add_food_totalCalories_sum :
    (∀ (day : DayRecord) (id : Int) (food : String) (calories : Int),
      (add_food_entry day id food calories).diet.totalCalories
        = ((add_food_entry day id food calories).diet.entries.map (fun e => e.calories)).sum)
    ∧ (add_food_entry (add_food_entry default_day_record 1 "A" 200) 2 "B" 150).diet.totalCalories = 350 :=
  ⟨fun _ _ _ _ => rfl, rfl⟩

/-! ## C9: load never fails -/

/-- C9: when the storage file is missing, or its content does not parse,
`load_data` yields the empty mapping; no failure escapes (the function is
total by construction). -/
theorem load_data_missing_or_corrupt_empty (parse : String → Option Store)
    (file : Option String) (content : String)
    (h : file = none ∨ (file = some content ∧ parse content = none)) :
    load_data parse file = emptyStore := by
  rcases h with h | ⟨h1, h2⟩
  · simp [load_data, h]
  · simp [load_data, h1, h2]

/-- Witness for C9 at a concrete missing file and a concrete parser. -/
theorem load_data_missing_or_corrupt_empty_witness :
    ((none : Option String) = none
        ∨ ((none : Option String) = some "" ∧ (fun _ : String => (none : Option Store)) "" = none))
      ∧ load_data (fun _ => none) none = emptyStore :=
  ⟨Or.inl rfl, load_data_missing_or_corrupt_empty (fun _ => none) none "" (Or.inl rfl)⟩

/-! ## C10: sleep-hours is total and errors give 0.0 -/

/-- C10: `calculate_sleep_hours` is total (it is a Lean function), and when
either input is the empty string or fails to parse as `%H:%M` the result is
exactly 0. -/
theorem sleep_hours_zero_on_bad_input (bt wt : String)
    (h : bt = "" ∨ wt = "" ∨ parseTimeHM bt = none ∨ parseTimeHM wt = none) :
    calculate_sleep_hours bt wt = 0 := by
  by_cases hbw : bt = "" ∨ wt = ""
  · simp [calculate_sleep_hours, hbw]
  · rcases h with h | h | h | h
    · exact absurd (Or.inl h) hbw
    · exact absurd (Or.inr h) hbw
    · simp [calculate_sleep_hours, hbw, h]
    · simp [calculate_sleep_hours, hbw, h]

/-- Witness for C10 at a concrete unparseable bed time. -/
theorem sleep_hours_zero_on_bad_input_witness :
    (parseTimeHM "xx" = none) ∧ calculate_sleep_hours "xx" "06:00" = 0 :=
  ⟨rfl, sleep_hours_zero_on_bad_input "xx" "06:00" (Or.inr (Or.inr (Or.inl rfl)))⟩

/-! ## C1: the streak equals the most recent run of flagged days -/

/-- Once the scan is past today (offset at least 1), running the loop from
offset `i` with `fuel` iterations left adds one per flagged day up to the
first terminating offset `B`. -/
theorem streakGo_break (data : Store) (today : Int) (B : ℕ)
    (hBf : flagged_on data today B = false)
    (hrun : ∀ i, 1 ≤ i → i < B → flagged_on data today i = true) :
    ∀ fuel i streak, i + fuel = 365 → 1 ≤ i → i ≤ B → B ≤ 365 →
      (streakGo data today fuel i streak).1 = streak + (B - i) := by
  intro fuel
  induction fuel with
  | zero =>
      intro i streak hsum h1 hiB hB
      have hBi : B = i := by omega
      subst hBi
      simp [streakGo]
  | succ f ih =>
      intro i streak hsum h1 hiB hB
      rcases Nat.lt_or_ge i B with hlt | hge
      · have hfl : flagged_on data today i = true := hrun i h1 hlt
        simp only [streakGo, hfl, if_true]
        rw [ih (i + 1) (streak + 1) (by omega) (by omega) (by omega) hB]
        omega
      · have hiB2 : i = B := le_antisymm hiB hge
        subst hiB2
        have hne : ¬ (i = 0) := by omega
        simp [streakGo, hBf, hne]

/-- C1 (amended): the scan is bounded to 365 days of lookback; whenever the
first terminating offset `B` (the least offset of at least 1 whose day is
absent or unflagged) lies within the bound, the computed streak is
(1 if today is flagged else 0) + (B - 1) — i.e. the length of the most
recent run, with today tolerated at offset 0. -/
theorem nofap_streak_counts_recent_run (data : Store) (today : Int) (B : ℕ)
    (hB1 : 1 ≤ B) (hB2 : B ≤ 365)
    (hBf : flagged_on data today B = false)
    (hrun : ((List.range B).all (fun i => i == 0 || flagged_on data today i)) = true) :
    (calculate_nofap_streak data today).1
      = (if flagged_on data today 0 then 1 else 0) + (B - 1) := by
  have hrun2 : ∀ i, 1 ≤ i → i < B → flagged_on data today i = true := by
    intro i h1 h2
    have := List.all_eq_true.mp hrun i (List.mem_range.mpr h2)
    simp only [Bool.or_eq_true, beq_iff_eq] at this
    rcases this with h | h
    · omega
    · exact h
  show (streakGo data today (364 + 1) 0 0).1 = _
  rw [streakGo]
  rcases Bool.eq_false_or_eq_true (flagged_on data today 0) with h0 | h0
  · rw [h0]
    simp only [if_true, Nat.zero_add]
    rw [streakGo_break data today B hBf hrun2 364 1 1 (by omega) (by omega) hB1 hB2]
  · rw [h0]
    simp only [Bool.false_eq_true, if_false, if_true, Nat.zero_add]
    rw [streakGo_break data today B hBf hrun2 364 1 0 (by omega) (by omega) hB1 hB2]
    omega

/-- Witness for C1's amended theorem: yesterday and today flagged, the day
before absent, gives a streak of 2. -/
theorem nofap_streak_counts_recent_run_witness :
    (1 ≤ 2 ∧ 2 ≤ 365 ∧ flagged_on store2 0 2 = false
        ∧ ((List.range 2).all (fun i => i == 0 || flagged_on store2 0 i)) = true)
      ∧ (calculate_nofap_streak store2 0).1
          = (if flagged_on store2 0 0 then 1 else 0) + (2 - 1) :=
  ⟨⟨by decide, by decide, by decide, by decide⟩,
    nofap_streak_counts_recent_run store2 0 2 (by decide) (by decide) (by decide) (by decide)⟩

/-- The run length exactly as the claim's sentence describes it, with no
lookback bound: scanning backward from today, a day at offset at least 1
that is absent or unflagged terminates the scan, today is tolerated, and
each flagged scanned day counts one.  Second definition following the
claim's words, for comparison with `calculate_nofap_streak`. -/
def streak_spec_run (data : Store) (today : Int) (r : ℕ) : Prop :=
  ∃ B : ℕ, 1 ≤ B ∧ flagged_on data today B = false
    ∧ (∀ i, 1 ≤ i → i < B → flagged_on data today i = true)
    ∧ r = (if flagged_on data today 0 then 1 else 0) + (B - 1)

set_option maxRecDepth 8000 in
/-- Counterexample to C1 as stated: on a store flagged for 366 consecutive
days ending today, the most recent run as the claim describes it has
length 366 (and not 365), but the code returns 365 — the loop stops after
365 offsets. -/
theorem nofap_streak_lookback_cap_cex :
    (calculate_nofap_streak store366 0).1 = 365
      ∧ streak_spec_run store366 0 366
      ∧ ¬ streak_spec_run store366 0 365 := by
  refine ⟨by decide, ⟨366, by decide, by decide, ?_, by decide⟩, ?_⟩
  · intro i h1 h2
    have hc : -365 ≤ (0 : Int) - (i : Int) ∧ (0 : Int) - (i : Int) ≤ 0 := by
      constructor <;> omega
    simp only [flagged_on, store366]
    rw [if_pos hc]
    rfl
  · rintro ⟨B, hB1, hBf, hrun, hEq⟩
    have h0 : flagged_on store366 0 0 = true := by decide
    simp only [h0, if_true] at hEq
    have hB : B = 365 := by omega
    subst hB
    have ht : flagged_on store366 0 365 = true := by decide
    simp [ht] at hBf

/-! ## Analytics helper lemmas -/

/-- `get_day_data` changes no key other than the one it is asked for. -/
theorem get_day_data_lookup_ne (data : Store) (k k2 : Int) (hne : k2 ≠ k) :
    (get_day_data data k).2 k2 = data k2 := by
  unfold get_day_data
  cases h : data k with
  | some r => rfl
  | none => simp [hne]

/-- The dates of the stats produced by the analytics loop are exactly
today minus the processed offsets, in order. -/
theorem analyticsGo_dates (today : Int) :
    ∀ (offs : List ℕ) (data : Store),
      (analyticsGo today offs data).1.map (fun s => s.date)
        = offs.map (fun (i : ℕ) => today - (i : Int)) := by
  intro offs
  induction offs with
  | nil => intro data; rfl
  | cons i rest ih =>
      intro data
      simp only [analyticsGo, List.map_cons]
      rw [ih]
      rfl

/-- Reversed `range` written as an explicit map. -/
theorem range_reverse_eq_map (n : ℕ) :
    (List.range n).reverse = List.map (fun i => 0 + n - 1 - i) (List.range n) := by
  have h1 : (List.range n).reverse = (List.range' 0 n).reverse := by
    rw [List.range_eq_range']
  exact h1.trans (List.reverse_range' 0 n)

/-- The stat at position `j` of the analytics loop over distinct offsets,
when the day at offset `offs[j]` has no pre-existing record, is the
projection of the default record. -/
theorem analyticsGo_untouched (today : Int) :
    ∀ (offs : List ℕ), offs.Nodup → ∀ (data : Store) (j o : ℕ),
      offs[j]? = some o → data (today - (o : Int)) = none →
      (analyticsGo today offs data).1[j]?
        = some (mkDailyStat (today - (o : Int)) default_day_record) := by
  intro offs
  induction offs with
  | nil => intro _ data j o hj; simp at hj
  | cons i rest ih =>
      intro hnd data j o hj hdata
      have hmem : i ∉ rest := (List.nodup_cons.mp hnd).1
      have hnd2 : rest.Nodup := (List.nodup_cons.mp hnd).2
      rcases j with _ | j
      · rw [List.getElem?_cons_zero] at hj
        have hio : i = o := by simpa using hj
        subst hio
        simp only [analyticsGo, List.getElem?_cons_zero]
        simp [get_day_data, hdata]
      · rw [List.getElem?_cons_succ] at hj
        have ho : o ∈ rest := List.getElem?_mem hj
        have hio : o ≠ i := fun h => hmem (h ▸ ho)
        simp only [analyticsGo, List.getElem?_cons_succ]
        apply ih hnd2 _ j o hj
        have hkey : (today : Int) - (o : Int) ≠ today - (i : Int) := by
          intro h
          exact hio (by omega)
        rw [get_day_data_lookup_ne data _ _ hkey]
        exact hdata

/-! ## C2: shape of the analytics window -/

/-- C2: for every store and every positive day count, the analytics window
has exactly `days` entries, whose dates are consecutive, strictly
increasing, and end at today: the entry at position `j` carries date
`today - (days - 1 - j)`, so the last carries `today`. -/
theorem analytics_window_shape (data : Store) (today : Int) (days : ℕ)
    (_hdays : 0 < days) :
    (get_analytics_data data today days).1.length = days
      ∧ (get_analytics_data data today days).1.map (fun s => s.date)
          = (List.range days).map (fun j => today - ((days - 1 - j : ℕ) : Int)) := by
  have hmap : (get_analytics_data data today days).1.map (fun s => s.date)
      = ((List.range days).reverse).map (fun (i : ℕ) => today - (i : Int)) :=
    analyticsGo_dates today (List.range days).reverse data
  constructor
  · have := congrArg List.length hmap
    simpa using this
  · rw [hmap, range_reverse_eq_map, List.map_map]
    simp only [Function.comp, Nat.zero_add]
    rfl

/-- Witness for C2 at a 7-day window over the empty store. -/
theorem analytics_window_shape_witness :
    0 < 7 ∧
      ((get_analytics_data emptyStore 0 7).1.length = 7
        ∧ (get_analytics_data emptyStore 0 7).1.map (fun s => s.date)
            = (List.range 7).map (fun j => (0 : Int) - ((7 - 1 - j : ℕ) : Int))) :=
  ⟨by decide, analytics_window_shape emptyStore 0 7 (by decide)⟩

/-! ## C6: stats of an untouched day -/

/-- Counterexample to C6 as stated: over an empty store, the single
untouched day in a one-day window gets `energy = 3` (the default record's
energy), not 0 as the claim requires of every listed field. -/
theorem untouched_day_energy_cex :
    ((get_analytics_data emptyStore 0 1).1.map (fun s => s.energy)) ≠ [0]
      ∧ ((get_analytics_data emptyStore 0 1).1.map (fun s => s.energy)) = [3] :=
  ⟨by decide, rfl⟩

/-- C6 (amended): for every date in the window with no pre-existing
record, the produced `DailyStat` has `workMinutes`, `caloriesIn`,
`caloriesOut`, `sleepHours`, `faceTotal`, `faceDone` and `nofapFlag` all
zero, and `energy` equal to 3 — the default record's energy. -/
theorem untouched_day_stats (data : Store) (today : Int) (days j : ℕ)
    (hj : j < days) (hnone : data (today - ((days - 1 - j : ℕ) : Int)) = none) :
    ((get_analytics_data data today days).1.map
        (fun s => (s.work_mins, s.cals_in, s.cals_out, s.sleep, s.energy,
          s.face_total, s.face_done, s.nofap)))[j]?
      = some (0, 0, 0, 0, 3, 0, 0, 0) := by
  have hoffs : ((List.range days).reverse)[j]? = some (days - 1 - j) := by
    rw [range_reverse_eq_map, List.getElem?_map, List.getElem?_range hj]
    simp
  have hnd : ((List.range days).reverse).Nodup :=
    List.nodup_reverse.mpr (List.nodup_range days)
  have hmain := analyticsGo_untouched today (List.range days).reverse hnd data j
    (days - 1 - j) hoffs hnone
  rw [List.getElem?_map]
  show Option.map _ ((analyticsGo today (List.range days).reverse data).1[j]?) = _
  rw [hmain]
  rfl

/-- Witness for C6's amended theorem: day 0 of a two-day window over the
empty store. -/
theorem untouched_day_stats_witness :
    0 < 2
      ∧ emptyStore ((0 : Int) - ((2 - 1 - 0 : ℕ) : Int)) = none
      ∧ ((get_analytics_data emptyStore 0 2).1.map
          (fun s => (s.work_mins, s.cals_in, s.cals_out, s.sleep, s.energy,
            s.face_total, s.face_done, s.nofap)))[0]?
        = some (0, 0, 0, 0, 3, 0, 0, 0) :=
  ⟨by decide, rfl, untouched_day_stats emptyStore 0 2 0 (by decide) rfl⟩

/-! ## C7: lazy defaulting inserts but does not persist -/

/-- Counterexample to C7 as stated: querying a fresh date key inserts the
default record into the in-memory mapping, but durable storage still lacks
the key afterwards — `get_day_data` never calls `save_data`, so the
"persists it to durable storage" part of the claim fails. -/
theorem lazy_default_not_persisted_cex :
    ((get_day_dataW { data := emptyStore, disk := emptyStore } 0).2.data 0).isSome = true
      ∧ (get_day_dataW { data := emptyStore, disk := emptyStore } 0).2.disk 0 = none :=
  ⟨rfl, rfl⟩

/-- C7 (amended): for every date key not yet in the store, a query inserts
the fully-populated default DayRecord into the in-memory mapping, but does
not write durable storage; the analytics aggregator likewise leaves
durable storage untouched.  Persistence happens only through
`update_and_save`. -/
theorem lazy_default_inserts_without_persist (w : World) (date_key : Int)
    (today : Int) (days : ℕ) (h : w.data date_key = none) :
    (get_day_dataW w date_key).2.data date_key = some default_day_record
      ∧ (get_day_dataW w date_key).2.disk = w.disk
      ∧ (get_analytics_dataW w today days).2.disk = w.disk := by
  refine ⟨?_, rfl, rfl⟩
  simp [get_day_dataW, get_day_data, h]

/-- Witness for C7's amended theorem at a concrete fresh key. -/
theorem lazy_default_inserts_without_persist_witness :
    ((emptyStore : Store) 5 = none)
      ∧ ((get_day_dataW { data := emptyStore, disk := emptyStore } 5).2.data 5
            = some default_day_record
        ∧ (get_day_dataW { data := emptyStore, disk := emptyStore } 5).2.disk = emptyStore
        ∧ (get_analytics_dataW { data := emptyStore, disk := emptyStore } 0 1).2.disk = emptyStore) :=
  ⟨rfl, lazy_default_inserts_without_persist { data := emptyStore, disk := emptyStore } 5 0 1 rfl⟩

/-! ## C3: shallow merge and synchronous persistence -/

/-- C3: `update_and_save` shallow-merges only the top-level fields: a
supplied `sleep` sub-object replaces the record's `sleep` wholesale (so a
sleep object lacking the `hours` key leaves a record whose sleep has no
`hours`, not the previous value), every unsupplied top-level field is kept
from the existing (or freshly defaulted) record, and afterwards the whole
mapping is persisted synchronously to durable storage.  Here `r0` is the
record `get_day_data` yields for the key: the existing record, or the
default one for a fresh key. -/
theorem merge_shallow_replaces_and_persists (w : World) (date_key : Int)
    (u : DayPatch) (r0 : DayRecord) (s : Sleep)
    (h0 : (get_day_data w.data date_key).1 = r0) (hs : u.sleep = some s) :
    ((update_and_save w date_key u).data date_key).map (fun r => r.sleep) = some s
      ∧ (s.hours = none →
          ((update_and_save w date_key u).data date_key).map (fun r => r.sleep.hours)
            = some none)
      ∧ (u.workTasks = none →
          ((update_and_save w date_key u).data date_key).map (fun r => r.workTasks)
            = some r0.workTasks)
      ∧ (u.fitness = none →
          ((update_and_save w date_key u).data date_key).map (fun r => r.fitness)
            = some r0.fitness)
      ∧ (u.faceHealth = none →
          ((update_and_save w date_key u).data date_key).map (fun r => r.faceHealth)
            = some r0.faceHealth)
      ∧ (u.diet = none →
          ((update_and_save w date_key u).data date_key).map (fun r => r.diet)
            = some r0.diet)
      ∧ (u.energy = none →
          ((update_and_save w date_key u).data date_key).map (fun r => r.energy)
            = some r0.energy)
      ∧ (u.nofapStreak = none →
          ((update_and_save w date_key u).data date_key).map (fun r => r.nofapStreak)
            = some r0.nofapStreak)
      ∧ (update_and_save w date_key u).disk = (update_and_save w date_key u).data := by
  have hdata : (update_and_save w date_key u).data date_key
      = some (dict_update r0 u) := by
    rw [← h0]
    simp [update_and_save]
  refine ⟨?_, ?_, ?_, ?_, ?_, ?_, ?_, ?_, rfl⟩
  · rw [hdata]; simp [dict_update, hs]
  · intro hh; rw [hdata]; simp [dict_update, hs, hh]
  · intro hu; rw [hdata]; simp [dict_update, hu]
  · intro hu; rw [hdata]; simp [dict_update, hu]
  · intro hu; rw [hdata]; simp [dict_update, hu]
  · intro hu; rw [hdata]; simp [dict_update, hu]
  · intro hu; rw [hdata]; simp [dict_update, hu]
  · intro hu; rw [hdata]; simp [dict_update, hu]

/-- A record whose sleep has a recorded `hours` value of 8, used to show
the merge drops it. -/
def rec8 : DayRecord :=
  { default_day_record with
      sleep := { bedTime := "22:00", wakeTime := "06:00", hours := some 8 } }

/-- A merge payload carrying a sleep object that lacks the `hours` key. -/
def patchNoHours : DayPatch :=
  { sleep := some { bedTime := "23:00", wakeTime := "07:00", hours := none } }

/-- Witness for C3: merging a sleep object without `hours` into a record
whose sleep hours were 8. -/
theorem merge_shallow_replaces_and_persists_witness :
    (get_day_data ((fun k => if k = 0 then some rec8 else none) : Store) 0).1 = rec8
      ∧ patchNoHours.sleep
          = some { bedTime := "23:00", wakeTime := "07:00", hours := none }
      ∧ ((update_and_save
            { data := fun k => if k = 0 then some rec8 else none, disk := emptyStore }
            0 patchNoHours).data 0).map (fun r => r.sleep.hours)
          = some none :=
  ⟨rfl, rfl,
    (merge_shallow_replaces_and_persists
      { data := fun k => if k = 0 then some rec8 else none, disk := emptyStore }
      0 patchNoHours rec8
      { bedTime := "23:00", wakeTime := "07:00", hours := none }
      rfl rfl).2.1 rfl⟩

/-! ## C5: the sleep-hours formula -/

/-- Any time the parser accepts is under 1440 minutes (a valid `%H:%M`
time is at most 23:59). -/
theorem parseTimeHM_lt (s : String) (v : ℕ) (h : parseTimeHM s = some v) :
    v < 1440 := by
  unfold parseTimeHM at h
  rcases hl : s.toList with _ | ⟨a, _ | ⟨b, _ | ⟨c, _ | ⟨d, _ | ⟨e, rest⟩⟩⟩⟩⟩ <;>
    rw [hl] at h
  · exact Option.noConfusion h
  · exact Option.noConfusion h
  · exact Option.noConfusion h
  · dsimp only at h
    split_ifs at h with hcond
    · obtain ⟨hb, ha, hc⟩ := hcond
      injection h with h
      simp only [digitVal] at h
      omega
  · dsimp only at h
    split_ifs at h with hcond1 hcond2
    · obtain ⟨hb, ha, hc, hd⟩ := hcond1
      injection h with h
      simp only [digitVal] at h
      omega
    · obtain ⟨hc, hab, hd⟩ := hcond2
      injection h with h
      simp only [digitVal] at h
      rcases hab with ⟨ha2, hb3⟩ | ⟨ha1, hb9⟩
      · have h2 : Char.toNat '2' = 50 := rfl
        rw [ha2] at h
        omega
      · omega
  · rcases rest with _ | ⟨f, rest2⟩
    · dsimp only at h
      split_ifs at h with hcond
      · obtain ⟨hc, hab, hd, he⟩ := hcond
        injection h with h
        simp only [digitVal] at h
        rcases hab with ⟨ha2, hb3⟩ | ⟨ha1, hb9⟩
        · have h2 : Char.toNat '2' = 50 := rfl
          rw [ha2] at h
          omega
        · omega
    · exact Option.noConfusion h

/-- Decimal rounding keeps nonnegative values nonnegative. -/
theorem round1_nonneg (q : ℚ) (h : 0 ≤ q) : 0 ≤ round1 q := by
  unfold round1
  rw [round_eq]
  have h2 : (0 : ℤ) ≤ ⌊10 * q + 1 / 2⌋ := by
    apply Int.le_floor.mpr
    push_cast
    linarith
  exact div_nonneg (by exact_mod_cast h2) (by norm_num)

/-- C5: for valid `%H:%M` inputs parsing to `b` (bed) and `w` (wake)
minutes past midnight, the result is `(w - b)` hours when the wake time
is not earlier, `(w + 24h - b)` hours when it is, rounded to one decimal,
and it is never negative. -/
theorem sleep_hours_wraparound (bt wt : String) (b w : ℕ)
    (hb : parseTimeHM bt = some b) (hw : parseTimeHM wt = some w) :
    calculate_sleep_hours bt wt
        = (if b ≤ w then round1 (((w : ℚ) - (b : ℚ)) / 60)
           else round1 (((w : ℚ) + 1440 - (b : ℚ)) / 60))
      ∧ 0 ≤ calculate_sleep_hours bt wt := by
  have hbne : bt ≠ "" := by
    intro hx
    rw [hx] at hb
    exact Option.noConfusion (show (none : Option ℕ) = some b from hb)
  have hwne : wt ≠ "" := by
    intro hx
    rw [hx] at hw
    exact Option.noConfusion (show (none : Option ℕ) = some w from hw)
  have hcond : ¬ (bt = "" ∨ wt = "") := by simp [hbne, hwne]
  have hval : calculate_sleep_hours bt wt
      = (if b ≤ w then round1 (((w : ℚ) - (b : ℚ)) / 60)
         else round1 (((w : ℚ) + 1440 - (b : ℚ)) / 60)) := by
    unfold calculate_sleep_hours
    rw [if_neg hcond, hb, hw]
    show round1 ((((if w < b then w + 1440 else w : ℕ) : ℚ) - (b : ℚ)) * 60 / 3600)
        = _
    rcases Nat.lt_or_ge w b with hlt | hge
    · rw [if_pos hlt, if_neg (by omega : ¬ b ≤ w)]
      congr 1
      push_cast
      ring
    · rw [if_neg (by omega : ¬ w < b), if_pos (by omega : b ≤ w)]
      congr 1
      ring
  refine ⟨hval, ?_⟩
  rw [hval]
  split
  · apply round1_nonneg
    apply div_nonneg _ (by norm_num)
    have : (b : ℚ) ≤ (w : ℚ) := by exact_mod_cast (by assumption : b ≤ w)
    linarith
  · apply round1_nonneg
    apply div_nonneg _ (by norm_num)
    have hblt : (b : ℚ) < 1440 := by exact_mod_cast parseTimeHM_lt bt b hb
    have hw0 : (0 : ℚ) ≤ (w : ℚ) := by positivity
    linarith

/-- Witness for C5: bed 23:30, wake 06:00 gives 6.5 hours. -/
theorem sleep_hours_wraparound_witness :
    parseTimeHM "23:30" = some 1410
      ∧ parseTimeHM "06:00" = some 360
      ∧ calculate_sleep_hours "23:30" "06:00" = 13 / 2
      ∧ 0 ≤ calculate_sleep_hours "23:30" "06:00" :=
  ⟨by decide, by decide,
    ((sleep_hours_wraparound "23:30" "06:00" 1410 360 (by decide) (by decide)).1).trans
      (by norm_num [round1, round_eq]),
    (sleep_hours_wraparound "23:30" "06:00" 1410 360 (by decide) (by decide)).2⟩
